import Mathlib

/-!
Shallow embedding of the DotPay mobile-money backend (JavaScript/Express),
covering the transaction state machine, funding-amount arithmetic, the
funding-log verifier, the quote engine, the webhook demultiplexer, the
JWT scope middleware, the refund service and the PIN utilities, together
with theorems settling the specification claims about them.

Conventions of the embedding:
* JavaScript numbers are modelled as rationals (`ℚ`) where fractional
  values matter and as integers (`ℤ`/`ℕ`) where the code works on
  integers/BigInt; `Math.round x` is `⌊x + 1/2⌋`.
* Fallible JavaScript code (functions that `throw`) is modelled with
  `Except String`.
* External effects (database writes, RPC calls, clocks, randomness,
  Node crypto builtins) are passed in as explicit parameters.
-/

namespace DotPay

/-- Transaction statuses, from `models/MpesaTransaction.js` (`STATUSES`). -/
inductive Status where
  | created
  | quoted
  | awaiting_user_authorization
  | awaiting_onchain_funding
  | mpesa_submitted
  | mpesa_processing
  | succeeded
  | failed
  | refund_pending
  | refunded
deriving DecidableEq, Repr

/-- The `STATUSES` list of `models/MpesaTransaction.js`. -/
def STATUSES : List Status :=
  [.created, .quoted, .awaiting_user_authorization, .awaiting_onchain_funding,
   .mpesa_submitted, .mpesa_processing, .succeeded, .failed, .refund_pending,
   .refunded]

/-- The `ALLOWED_TRANSITIONS` table of `services/mpesa/stateMachine.js`. -/
def ALLOWED_TRANSITIONS : Status → List Status
  | .created => [.quoted, .awaiting_user_authorization, .failed]
  | .quoted => [.awaiting_user_authorization, .mpesa_submitted, .failed]
  | .awaiting_user_authorization =>
      [.awaiting_onchain_funding, .mpesa_submitted, .failed]
  | .awaiting_onchain_funding => [.mpesa_submitted, .failed]
  | .mpesa_submitted => [.mpesa_processing, .succeeded, .failed]
  | .mpesa_processing => [.succeeded, .failed]
  | .succeeded => []
  | .failed => [.refund_pending, .refunded]
  | .refund_pending => [.refunded, .failed]
  | .refunded => []

/-- `canTransition(from, to_)` of `services/mpesa/stateMachine.js`. -/
def canTransition (from_ to_ : Status) : Bool :=
  if ¬ (STATUSES.contains from_ ∧ STATUSES.contains to_) then false
  else if from_ = to_ then true
  else (ALLOWED_TRANSITIONS from_).contains to_

/-- One entry of `transaction.history` as pushed by `assertTransition`
(the `at: new Date()` timestamp is supplied by the environment and is
threaded through as a `Nat` parameter `now`). -/
structure HistoryEntry where
  from_ : Status
  to_ : Status
  reason : Option String
  source : String
  at_ : Nat
deriving DecidableEq, Repr

/-- Refund sub-document of a transaction (`models/MpesaTransaction.js`). -/
structure RefundInfo where
  status : String
  reason : Option String
  txHash : Option String
  initiatedAt : Option Nat
  completedAt : Option Nat
deriving DecidableEq, Repr

/-- Daraja provider sub-document carrying the fields the webhook
demultiplexer writes (opaque raw payload blobs are omitted). -/
structure DarajaInfo where
  merchantRequestId : Option String
  checkoutRequestId : Option String
  resultCode : Option ℚ
  resultCodeRaw : Option String
  resultDesc : Option String
  receiptNumber : Option String
  callbackReceivedAt : Option Nat
deriving DecidableEq, Repr

/-- The numeric fields of a quote produced by `buildQuote` (the random
`quoteId` and the clock-derived `expiresAt`/`snapshotAt` are omitted). -/
structure Quote where
  currency : String
  amountRequested : ℚ
  amountKes : ℚ
  amountUsd : ℚ
  rateKesPerUsd : ℚ
  feeAmountKes : ℚ
  networkFeeKes : ℚ
  totalDebitKes : ℚ
  expectedReceiveKes : ℚ
deriving DecidableEq, Repr

/-- On-chain funding sub-document fields read by the refund service. -/
structure OnchainInfo where
  fromAddress : Option String
  expectedAmountUsd : ℚ
  fundedAmountUsd : ℚ
deriving DecidableEq, Repr

/-- Authorization sub-document fields read by the refund service. -/
structure AuthorizationInfo where
  signerAddress : Option String
deriving DecidableEq, Repr

/-- The transaction document, restricted to the fields the verified
operations read or write. -/
structure Transaction where
  transactionId : String
  flowType : String
  status : Status
  userAddress : String
  history : List HistoryEntry
  refund : RefundInfo
  daraja : DarajaInfo
  quote : Option Quote
  onchain : OnchainInfo
  authorization : AuthorizationInfo
deriving DecidableEq, Repr

/-- `assertTransition(transaction, to_, reason, source)` of
`services/mpesa/stateMachine.js`: throws on an illegal transition; a
same-state call leaves the transaction untouched; a real transition
appends one history entry and sets the new status. -/
def assertTransition (tx : Transaction) (to_ : Status) (reason : Option String)
    (source : String) (now : Nat) : Except String Transaction :=
  let from_ := tx.status
  if ¬ canTransition from_ to_ then
    Except.error "Invalid status transition"
  else if from_ ≠ to_ then
    Except.ok { tx with
      history := tx.history ++
        [{ from_ := from_, to_ := to_,
           reason := reason.bind (fun r => if r = "" then none else some r),
           source := source, at_ := now }],
      status := to_ }
  else
    Except.ok tx

/-- A fallible operation threw (rejected). -/
def throws {α : Type} (r : Except String α) : Prop := ∃ e, r = Except.error e

instance {ε α : Type} [DecidableEq ε] [DecidableEq α] :
    DecidableEq (Except ε α) := fun a b =>
  match a, b with
  | .ok x, .ok y =>
      if h : x = y then isTrue (by rw [h])
      else isFalse (by intro hh; cases hh; exact h rfl)
  | .error x, .error y =>
      if h : x = y then isTrue (by rw [h])
      else isFalse (by intro hh; cases hh; exact h rfl)
  | .ok _, .error _ => isFalse (by intro hh; cases hh)
  | .error _, .ok _ => isFalse (by intro hh; cases hh)

/-- JavaScript `String.prototype.trim`: strip leading and trailing
whitespace (modelled over `Char.isWhitespace`; `String.trim` itself is
not used because its well-founded recursion does not reduce in the
kernel). -/
def jsTrim (s : String) : String :=
  String.mk
    (((s.toList.dropWhile Char.isWhitespace).reverse.dropWhile
        Char.isWhitespace).reverse)

/-- JavaScript `String.prototype.split` with a one-character separator
(modelled char-by-char; `String.splitOn` is avoided because its
well-founded recursion does not reduce in the kernel). `"".split(sep)`
is `[""]`, like in JavaScript. -/
def jsSplitChar (sep : Char) (s : String) : List String :=
  (s.toList.foldr
    (fun c acc =>
      match acc with
      | [] => if c = sep then [[], []] else [[c]]
      | h :: t => if c = sep then [] :: (h :: t) else (c :: h) :: t)
    [[]]).map String.mk

lemma statuses_contains (s : Status) : STATUSES.contains s = true := by
  cases s <;> rfl

lemma canTransition_iff (a b : Status) :
    canTransition a b = true ↔ (a = b ∨ b ∈ ALLOWED_TRANSITIONS a) := by
  cases a <;> cases b <;> decide

/-- A sample transaction in status `quoted`, used to witness the
state-machine theorem. -/
def txQuoted : Transaction :=
  { transactionId := "MPX1", flowType := "offramp", status := .quoted,
    userAddress := "0xabc", history := [],
    refund := { status := "none", reason := none, txHash := none,
                initiatedAt := none, completedAt := none },
    daraja := { merchantRequestId := none, checkoutRequestId := none,
                resultCode := none, resultCodeRaw := none, resultDesc := none,
                receiptNumber := none, callbackReceivedAt := none },
    quote := none,
    onchain := { fromAddress := none, expectedAmountUsd := 0,
                 fundedAmountUsd := 0 },
    authorization := { signerAddress := none } }

/-- C1: `assertTransition(tx, to, reason, source)` throws exactly when
`tx.status ≠ to` and `(tx.status, to)` is not in the allowed transition
table; when `tx.status = to` it leaves status and history unchanged;
otherwise it appends exactly one history entry recording the old status,
the target, the reason and the source, and sets `tx.status = to`; and the
terminal statuses `succeeded` and `refunded` admit no outbound transition
to any different status. -/
theorem claim1_assertTransition_spec (tx : Transaction) (to_ : Status)
    (reason : Option String) (source : String) (now : Nat) :
    (throws (assertTransition tx to_ reason source now) ↔
       tx.status ≠ to_ ∧ to_ ∉ ALLOWED_TRANSITIONS tx.status)
    ∧ (tx.status = to_ → assertTransition tx to_ reason source now = Except.ok tx)
    ∧ (tx.status ≠ to_ → to_ ∈ ALLOWED_TRANSITIONS tx.status →
        assertTransition tx to_ reason source now = Except.ok
          { tx with
            status := to_,
            history := tx.history ++
              [{ from_ := tx.status, to_ := to_,
                 reason := reason.bind (fun r => if r = "" then none else some r),
                 source := source, at_ := now }] })
    ∧ (tx.status = .succeeded → to_ ≠ .succeeded →
        throws (assertTransition tx to_ reason source now))
    ∧ (tx.status = .refunded → to_ ≠ .refunded →
        throws (assertTransition tx to_ reason source now)) := by
  have hcan := canTransition_iff tx.status to_
  have hthrow : throws (assertTransition tx to_ reason source now) ↔
      canTransition tx.status to_ = false := by
    by_cases hc : canTransition tx.status to_ = true
    · by_cases heq : tx.status = to_
      · rw [heq] at hc
        simp [assertTransition, throws, heq, hc]
      · simp [assertTransition, throws, hc, heq]
    · have hc' : canTransition tx.status to_ = false := by
        simpa using hc
      simp [assertTransition, throws, hc']
  have hfalse : canTransition tx.status to_ = false ↔
      ¬ (tx.status = to_ ∨ to_ ∈ ALLOWED_TRANSITIONS tx.status) := by
    rw [← hcan]
    exact ⟨fun h => by simp [h], fun h => by simpa using h⟩
  refine ⟨?_, ?_, ?_, ?_, ?_⟩
  · rw [hthrow, hfalse, not_or]
  · intro heq
    subst heq
    have hc : canTransition tx.status tx.status = true := hcan.mpr (Or.inl rfl)
    simp [assertTransition, hc]
  · intro hne hmem
    have hc : canTransition tx.status to_ = true := hcan.mpr (Or.inr hmem)
    simp [assertTransition, hc, hne]
  · intro hs hne
    rw [hthrow, hfalse, not_or]
    constructor
    · rw [hs]; exact fun h => hne h.symm
    · rw [hs]; cases to_ <;> decide
  · intro hs hne
    rw [hthrow, hfalse, not_or]
    constructor
    · rw [hs]; exact fun h => hne h.symm
    · rw [hs]; cases to_ <;> decide

/-- Witness for C1: a real `quoted → mpesa_submitted` transition on a
concrete transaction appends one history entry and sets the status. -/
theorem claim1_assertTransition_spec_witness :
    assertTransition txQuoted .mpesa_submitted (some "submit") "test" 5 =
      Except.ok { txQuoted with
        status := .mpesa_submitted,
        history := [{ from_ := .quoted, to_ := .mpesa_submitted,
                      reason := some "submit", source := "test", at_ := 5 }] } := by
  have h := (claim1_assertTransition_spec txQuoted .mpesa_submitted
    (some "submit") "test" 5).2.2.1 (by decide) (by decide)
  simpa [txQuoted] using h

/-- JavaScript `Math.round`: round half toward positive infinity. -/
def jsRound (q : ℚ) : ℤ := ⌊q + 1 / 2⌋

/-- `toScaledInt(value, scale)` of `services/settlement/verifyUsdcFunding.js`:
throw unless the value is a positive (finite) number, then scale by
`10^scale` and round to a BigInt. -/
def toScaledInt (value : ℚ) (scale : ℕ) : Except String ℤ :=
  if value ≤ 0 then
    Except.error "Funding amount inputs must be positive numbers."
  else
    Except.ok (jsRound (value * 10 ^ scale))

/-- The `safeDecimals` computation of `calculateExpectedFundingFromQuote`:
`Math.max(0, Math.min(18, Number(decimals || 6)))` — note that a `decimals`
of `0` is falsy in JavaScript and therefore falls back to the default 6
before the clamp is applied. -/
def safeDecimals (decimals : ℤ) : ℤ :=
  max 0 (min 18 (if decimals = 0 then 6 else decimals))

/-- `calculateExpectedFundingFromQuote(quote, decimals)` of
`services/settlement/verifyUsdcFunding.js`, restricted to the integer
`expectedUnits` it computes (the `expectedUsd` display value is derived
from it and not modelled). BigInt division truncates toward zero
(`Int.tdiv`). -/
def calculateExpectedFundingFromQuote (totalDebitKes rateKesPerUsd : ℚ)
    (decimals : ℤ) : Except String ℤ := do
  let sd := safeDecimals decimals
  let totalDebitKesScaled ← toScaledInt totalDebitKes 6
  let rateKesPerUsdScaled ← toScaledInt rateKesPerUsd 6
  let tokenScale : ℤ := 10 ^ sd.toNat
  let expectedUnits :=
    (totalDebitKesScaled * tokenScale + rateKesPerUsdScaled - 1).tdiv
      rateKesPerUsdScaled
  if expectedUnits ≤ 0 then
    Except.error "Calculated funding amount is zero."
  else
    pure expectedUnits

lemma ceil_div_eq_ediv (a b : ℤ) (hb : 0 < b) :
    ⌈(a : ℚ) / (b : ℚ)⌉ = (a + b - 1) / b := by
  have hbQ : (0 : ℚ) < (b : ℚ) := by exact_mod_cast hb
  have hmod := Int.ediv_add_emod (a + b - 1) b
  have hr0 : 0 ≤ (a + b - 1) % b := Int.emod_nonneg _ (ne_of_gt hb)
  have hrb : (a + b - 1) % b < b := Int.emod_lt_of_pos _ hb
  rw [Int.ceil_eq_iff]
  constructor
  · rw [lt_div_iff₀ hbQ]
    have h : ((a + b - 1) / b - 1) * b < a := by nlinarith
    calc ((((a + b - 1) / b : ℤ) : ℚ) - 1) * (b : ℚ)
        = ((((a + b - 1) / b - 1) * b : ℤ) : ℚ) := by push_cast; ring
      _ < (a : ℚ) := by exact_mod_cast h
  · rw [div_le_iff₀ hbQ]
    have h : a ≤ (a + b - 1) / b * b := by nlinarith
    exact_mod_cast h

/-- C2 (amended): for positive `totalDebitKes` and `rateKesPerUsd` whose
6-decimal fixed-point scalings are positive integers, and integer token
decimals in `[1, 18]`, `calculateExpectedFundingFromQuote` returns the
exact integer ceiling `⌈(totalDebitKes_scaled * 10^decimals) /
rateKesPerUsd_scaled⌉`, which is strictly positive (so the
`expectedUnits ≤ 0` throw branch is not taken). A `decimals` argument
of `0` is falsy in JavaScript and falls back to the default 6, which is
why `0` is excluded here. -/
theorem claim2_expectedUnits (totalDebitKes rateKesPerUsd : ℚ) (decimals : ℤ)
    (hd1 : 1 ≤ decimals) (hd18 : decimals ≤ 18)
    (htpos : 0 < totalDebitKes) (hrpos : 0 < rateKesPerUsd)
    (ht1 : 1 ≤ jsRound (totalDebitKes * 10 ^ (6 : ℕ)))
    (hr1 : 1 ≤ jsRound (rateKesPerUsd * 10 ^ (6 : ℕ))) :
    calculateExpectedFundingFromQuote totalDebitKes rateKesPerUsd decimals =
      Except.ok
        ⌈((jsRound (totalDebitKes * 10 ^ (6 : ℕ)) * 10 ^ decimals.toNat : ℤ) : ℚ) /
          ((jsRound (rateKesPerUsd * 10 ^ (6 : ℕ)) : ℤ) : ℚ)⌉ ∧
    0 < ⌈((jsRound (totalDebitKes * 10 ^ (6 : ℕ)) * 10 ^ decimals.toNat : ℤ) : ℚ) /
          ((jsRound (rateKesPerUsd * 10 ^ (6 : ℕ)) : ℤ) : ℚ)⌉ := by
  set t := jsRound (totalDebitKes * 10 ^ (6 : ℕ)) with hT
  set r := jsRound (rateKesPerUsd * 10 ^ (6 : ℕ)) with hR
  have hsd : safeDecimals decimals = decimals := by
    simp only [safeDecimals]
    rw [if_neg (by omega : ¬ decimals = 0)]
    omega
  have hrpos' : (0 : ℤ) < r := by omega
  have hapos : (0 : ℤ) < t * 10 ^ decimals.toNat :=
    mul_pos (by omega) (pow_pos (by norm_num) _)
  have hceil := ceil_div_eq_ediv (t * 10 ^ decimals.toNat) r hrpos'
  have hcpos : 0 < ⌈((t * 10 ^ decimals.toNat : ℤ) : ℚ) / ((r : ℤ) : ℚ)⌉ := by
    apply Int.ceil_pos.mpr
    apply div_pos
    · exact_mod_cast hapos
    · exact_mod_cast hrpos'
  have htdiv : (t * 10 ^ decimals.toNat + r - 1).tdiv r
      = (t * 10 ^ decimals.toNat + r - 1) / r :=
    Int.tdiv_eq_ediv (by omega) (le_of_lt hrpos')
  have hval : (t * 10 ^ decimals.toNat + r - 1).tdiv r
      = ⌈((t * 10 ^ decimals.toNat : ℤ) : ℚ) / ((r : ℤ) : ℚ)⌉ := by
    rw [htdiv, hceil]
  refine ⟨?_, hcpos⟩
  simp only [calculateExpectedFundingFromQuote, toScaledInt,
    if_neg (not_le.mpr htpos), if_neg (not_le.mpr hrpos), hsd, ← hT, ← hR]
  simp only [bind, Except.bind, hval]
  rw [if_neg (not_le.mpr hcpos)]
  rfl

/-- Witness for C2: `totalDebitKes 1550` at rate `155` with 6 decimals
gives exactly `10000000` units, and `totalDebitKes 1000.03` at rate `155`
gives strictly more than `6451800` units (the ceiling is applied). -/
theorem claim2_expectedUnits_witness :
    calculateExpectedFundingFromQuote 1550 155 6 = Except.ok 10000000 ∧
    (∃ u, calculateExpectedFundingFromQuote (100003 / 100) 155 6 = Except.ok u ∧
      6451800 < u) := by
  have h1 := (claim2_expectedUnits 1550 155 6 (by norm_num) (by norm_num)
    (by norm_num) (by norm_num) (by norm_num [jsRound]) (by norm_num [jsRound])).1
  have h2 := (claim2_expectedUnits (100003 / 100) 155 6 (by norm_num) (by norm_num)
    (by norm_num) (by norm_num) (by norm_num [jsRound]) (by norm_num [jsRound])).1
  constructor
  · rw [h1]
    have ht6 : (6 : ℤ).toNat = 6 := rfl
    have : ⌈((jsRound ((1550 : ℚ) * 10 ^ (6 : ℕ)) * 10 ^ (6 : ℤ).toNat : ℤ) : ℚ) /
        ((jsRound ((155 : ℚ) * 10 ^ (6 : ℕ)) : ℤ) : ℚ)⌉ = 10000000 := by
      rw [ht6]
      norm_num [jsRound, Int.ceil_eq_iff]
    rw [this]
  · refine ⟨_, h2, ?_⟩
    have ht6 : (6 : ℤ).toNat = 6 := rfl
    have : ⌈((jsRound ((100003 / 100 : ℚ) * 10 ^ (6 : ℕ)) * 10 ^ (6 : ℤ).toNat : ℤ) : ℚ) /
        ((jsRound ((155 : ℚ) * 10 ^ (6 : ℕ)) : ℤ) : ℚ)⌉ = 6451807 := by
      rw [ht6]
      norm_num [jsRound, Int.ceil_eq_iff]
    rw [this]
    norm_num

/-- Counterexample for C2 as stated: the claim admits token decimals `0`
(clamped to `[0, 18]`), under which the claimed formula yields
`⌈(1550·10⁶ × 10⁰) / (155·10⁶)⌉ = 10`, but the code's
`Number(decimals || 6)` treats `0` as falsy and uses the default 6, so
`calculateExpectedFundingFromQuote` returns `10000000` instead. -/
theorem claim2_decimals_zero_counterexample :
    calculateExpectedFundingFromQuote 1550 155 0 = Except.ok 10000000 ∧
    ⌈((jsRound ((1550 : ℚ) * 10 ^ (6 : ℕ)) * 10 ^ (0 : ℤ).toNat : ℤ) : ℚ) /
        ((jsRound ((155 : ℚ) * 10 ^ (6 : ℕ)) : ℤ) : ℚ)⌉ = 10 ∧
    (10000000 : ℤ) ≠ 10 := by
  have e1 : toScaledInt 1550 6 = Except.ok 1550000000 := by
    rw [toScaledInt, if_neg (by norm_num)]
    norm_num [jsRound]
  have e2 : toScaledInt 155 6 = Except.ok 155000000 := by
    rw [toScaledInt, if_neg (by norm_num)]
    norm_num [jsRound]
  refine ⟨?_, ?_, by norm_num⟩
  · have hsd : safeDecimals 0 = 6 := by decide
    simp only [calculateExpectedFundingFromQuote, hsd, e1, e2, bind, Except.bind]
    have hv : ((1550000000 : ℤ) * 10 ^ (6 : ℤ).toNat + 155000000 - 1).tdiv 155000000
        = 10000000 := by decide
    rw [hv, if_neg (by norm_num)]
    rfl
  · have r1 : jsRound ((1550 : ℚ) * 10 ^ (6 : ℕ)) = 1550000000 := by
      norm_num [jsRound]
    have r2 : jsRound ((155 : ℚ) * 10 ^ (6 : ℕ)) = 155000000 := by
      norm_num [jsRound]
    rw [r1, r2]
    norm_num [Int.ceil_eq_iff]

/-- `normalizePin(value)` of `services/security/pin.js`:
`String(value || "").trim().replace(/\D/g, "")` — trims, then removes
every non-digit character. -/
def normalizePin (value : String) : String :=
  String.mk ((jsTrim value).toList.filter Char.isDigit)

/-- `assertPinFormat(pin, expectedLength)` of `services/security/pin.js`.
The regex test `/^\d+$/.test(normalized)` holds iff the normalized string
is non-empty and all of its characters are digits. -/
def assertPinFormat (pin : String) (expectedLength : ℤ) : Except String String :=
  let normalized := normalizePin pin
  let len : ℤ := if expectedLength = 0 then 6 else expectedLength
  if normalized = "" then
    Except.error "pin is required."
  else if ¬ (normalized ≠ "" ∧ normalized.toList.all Char.isDigit) then
    Except.error "pin must contain digits only."
  else if (normalized.length : ℤ) ≠ len then
    Except.error "pin must be exactly N digits."
  else
    Except.ok normalized

/-- Byte-level `timingSafeEqual` of `services/security/pin.js`: a length
check followed by a constant-time comparison, extensionally equality of
the byte strings. -/
def timingSafeEqualBytes (a b : List Nat) : Bool :=
  if a.length ≠ b.length then false else a = b

/-- `verifyPin(pin, storedHash, options)` of `services/security/pin.js`
with the default 6-digit length. The Node crypto builtins are passed in:
`scryptFn pin salt keyLen` is `crypto.scryptSync` and `b64decode` is
`Buffer.from(s, "base64")`. -/
def verifyPin (scryptFn : String → List Nat → Nat → List Nat)
    (b64decode : String → List Nat) (pin storedHash : String) :
    Except String Bool := do
  let normalized ← assertPinFormat pin 6
  let raw := jsTrim storedHash
  let parts := jsSplitChar (Char.ofNat 36) raw
  if parts.length ≠ 3 ∨ parts.headD "" ≠ "scrypt" then
    pure false
  else
    let salt := b64decode (parts.getD 1 "")
    let expected := b64decode (parts.getD 2 "")
    let derived := scryptFn normalized salt expected.length
    pure (timingSafeEqualBytes derived expected)

lemma normalizePin_all_digits (pin : String) :
    (normalizePin pin).toList.all Char.isDigit = true := by
  simp only [normalizePin]
  rw [List.all_eq_true]
  intro c hc
  exact List.of_mem_filter hc

/-- C6 is a code bug: the specification requires the PIN format check to
reject any input containing non-digit, non-whitespace content, and the
code even carries a dedicated `pin must contain digits only.` rejection,
but `normalizePin` strips every non-digit character first, so
`"12a34b56"` normalizes to `"123456"` and is accepted, and the
digits-only rejection branch can never fire for any input. -/
theorem claim6_pin_format_code_bug :
    assertPinFormat "12a34b56" 6 = Except.ok "123456" ∧
    normalizePin "12a34b56" = "123456" ∧
    (∀ (pin : String) (len : ℤ),
      assertPinFormat pin len ≠ Except.error "pin must contain digits only.") := by
  refine ⟨by decide, by decide, ?_⟩
  intro pin len
  have hall := normalizePin_all_digits pin
  simp only [assertPinFormat]
  by_cases h0 : normalizePin pin = ""
  · rw [if_pos h0]
    simp
  · rw [if_neg h0, if_neg (by intro hcond; exact hcond ⟨h0, hall⟩)]
    by_cases hl : ((normalizePin pin).length : ℤ) ≠ (if len = 0 then 6 else len)
    · rw [if_pos hl]
      simp
    · rw [if_neg hl]
      simp

/-- C10: for a well-formed pin, `verifyPin` returns `false` without
throwing on every stored hash that does not consist of exactly three
dollar-separated parts with the first part equal to `scrypt` — whatever
the scrypt and base64 builtins do — so such a stored hash can never
verify any pin. `Char.ofNat 36` is the dollar separator character. -/
theorem claim10_verifyPin_foreign_hash
    (scryptFn : String → List Nat → Nat → List Nat)
    (b64decode : String → List Nat) (pin storedHash p : String)
    (hp : assertPinFormat pin 6 = Except.ok p)
    (hmal : (jsSplitChar (Char.ofNat 36) (jsTrim storedHash)).length ≠ 3 ∨
      (jsSplitChar (Char.ofNat 36) (jsTrim storedHash)).headD "" ≠ "scrypt") :
    verifyPin scryptFn b64decode pin storedHash = Except.ok false := by
  simp only [verifyPin, hp, bind, Except.bind]
  rw [if_pos hmal]
  rfl

/-- Witness for C10: the six-digit pin `123456` is rejected (with `false`,
not an exception) against an empty stored hash and against a
foreign-scheme `bcrypt` hash, for a concrete stand-in scrypt. -/
theorem claim10_verifyPin_foreign_hash_witness :
    verifyPin (fun _ _ _ => []) (fun _ => []) "123456" "" = Except.ok false ∧
    verifyPin (fun _ _ _ => []) (fun _ => [])
      "123456" "bcrypt$ab$cd" = Except.ok false := by
  constructor
  · exact claim10_verifyPin_foreign_hash _ _ _ _ "123456" (by decide)
      (Or.inl (by decide))
  · exact claim10_verifyPin_foreign_hash _ _ _ _ "123456" (by decide)
      (Or.inr (by decide))

/-- JavaScript `String.prototype.toUpperCase` (ASCII, characterwise). -/
def jsToUpper (s : String) : String :=
  String.mk (s.toList.map Char.toUpper)

/-- `round2(value)` of `services/mpesa/darajaClient.js`:
`Math.round(value * 100) / 100`. -/
def round2 (value : ℚ) : ℚ := (jsRound (value * 100) : ℚ) / 100

/-- The `FEE_BPS_BY_FLOW` table of `services/mpesa/darajaClient.js`;
`none` models an absent key (the caller falls back to 150 via `?? 150`). -/
def FEE_BPS_BY_FLOW (flowType : String) : Option ℚ :=
  if flowType = "onramp" then some 130
  else if flowType = "offramp" then some 180
  else if flowType = "paybill" then some 120
  else if flowType = "buygoods" then some 120
  else none


/-- The rate selection inside `buildQuote`:
`Number.isFinite(Number(kesPerUsd)) && Number(kesPerUsd) > 0 ?
Number(kesPerUsd) : Number(mpesaConfig.quote?.defaultRateKesPerUsd || 130)`
(`none` models an absent or non-finite override). -/
def effectiveRate (kesPerUsd : Option ℚ) (defaultRate : ℚ) : ℚ :=
  match kesPerUsd with
  | some r => if 0 < r then r else defaultRate
  | none => defaultRate

/-- `buildQuote({flowType, amount, currency, kesPerUsd})` of
`services/mpesa/darajaClient.js`, restricted to its numeric fields.
`kesPerUsd` is `none` when the override is absent or not a finite
number; `defaultRate` is `Number(mpesaConfig.quote?.defaultRateKesPerUsd
|| 130)`. -/
def buildQuote (flowType : String) (amount : ℚ) (currency : String)
    (kesPerUsd : Option ℚ) (defaultRate : ℚ) : Except String Quote :=
  if amount ≤ 0 then
    Except.error "amount must be a positive number."
  else
    let normalizedCurrency := jsToUpper (if currency = "" then "KES" else currency)
    if ¬ (normalizedCurrency = "KES" ∨ normalizedCurrency = "USD") then
      Except.error "currency must be KES or USD."
    else
      let rateKesPerUsd := effectiveRate kesPerUsd defaultRate
      let amountKes :=
        if normalizedCurrency = "KES" then amount
        else round2 (amount * rateKesPerUsd)
      let amountUsd :=
        if normalizedCurrency = "USD" then amount
        else round2 (amount / rateKesPerUsd)
      let feeBps := (FEE_BPS_BY_FLOW flowType).getD 150
      let feeAmountKes := round2 (max 5 (amountKes * feeBps / 10000))
      let networkFeeKes := round2 (if flowType = "onramp" then 0 else 3)
      let totalDebitKes := round2 (amountKes + feeAmountKes + networkFeeKes)
      let expectedReceiveKes := round2 amountKes
      Except.ok
        { currency := normalizedCurrency,
          amountRequested := round2 amount,
          amountKes := amountKes,
          amountUsd := amountUsd,
          rateKesPerUsd := round2 rateKesPerUsd,
          feeAmountKes := feeAmountKes,
          networkFeeKes := networkFeeKes,
          totalDebitKes := totalDebitKes,
          expectedReceiveKes := expectedReceiveKes }

lemma jsRound_nonneg (q : ℚ) (hq : 0 ≤ q) : 0 ≤ jsRound q := by
  have : (0 : ℤ) = ⌊(0 : ℚ) + 1 / 2⌋ := by norm_num
  rw [jsRound, this]
  exact Int.floor_le_floor (by linarith)

lemma round2_nonneg (q : ℚ) (hq : 0 ≤ q) : 0 ≤ round2 q := by
  rw [round2]
  have h := jsRound_nonneg (q * 100) (by positivity)
  positivity

/-- C4 (amended): for every positive amount, valid currency and positive
default rate, `buildQuote` succeeds and the quote satisfies
`feeAmountKes = round2(max(5, amountKes * feeBps / 10000))` with basis
points 130 for onramp, 180 for offramp, 120 for paybill and buygoods and
150 for any other flow; `networkFeeKes = 0` for onramp and `3` otherwise;
`totalDebitKes = round2(amountKes + feeAmountKes + networkFeeKes)`;
`expectedReceiveKes = round2(amountKes)` (not `amountKes` itself: for a
KES request `amountKes` is the raw requested amount and is not rounded);
and all KES fields are non-negative. -/
theorem claim4_buildQuote (flowType : String) (amount : ℚ) (currency : String)
    (kesPerUsd : Option ℚ) (defaultRate : ℚ)
    (hamt : 0 < amount) (hcur : currency = "KES" ∨ currency = "USD")
    (hrate : 0 < defaultRate) :
    (∃ q, buildQuote flowType amount currency kesPerUsd defaultRate = Except.ok q) ∧
    ∀ q, buildQuote flowType amount currency kesPerUsd defaultRate = Except.ok q →
      q.feeAmountKes =
        round2 (max 5 (q.amountKes * ((FEE_BPS_BY_FLOW flowType).getD 150) / 10000)) ∧
      FEE_BPS_BY_FLOW "onramp" = some 130 ∧
      FEE_BPS_BY_FLOW "offramp" = some 180 ∧
      FEE_BPS_BY_FLOW "paybill" = some 120 ∧
      FEE_BPS_BY_FLOW "buygoods" = some 120 ∧
      (flowType ∉ ["onramp", "offramp", "paybill", "buygoods"] →
        (FEE_BPS_BY_FLOW flowType).getD 150 = 150) ∧
      q.networkFeeKes = (if flowType = "onramp" then 0 else 3) ∧
      q.totalDebitKes = round2 (q.amountKes + q.feeAmountKes + q.networkFeeKes) ∧
      q.expectedReceiveKes = round2 q.amountKes ∧
      0 ≤ q.amountKes ∧ 0 ≤ q.feeAmountKes ∧ 0 ≤ q.networkFeeKes ∧
      0 ≤ q.totalDebitKes ∧ 0 ≤ q.expectedReceiveKes := by
  have hup : jsToUpper (if currency = "" then "KES" else currency) = currency := by
    rcases hcur with h | h <;> subst h <;> decide
  have hcurok : jsToUpper (if currency = "" then "KES" else currency) = "KES" ∨
      jsToUpper (if currency = "" then "KES" else currency) = "USD" := by
    rw [hup]; exact hcur
  have hratepos : 0 < effectiveRate kesPerUsd defaultRate := by
    cases kesPerUsd with
    | none => exact hrate
    | some r =>
        rw [effectiveRate]
        split
        · assumption
        · exact hrate
  have hbq : buildQuote flowType amount currency kesPerUsd defaultRate =
      Except.ok
        { currency := jsToUpper (if currency = "" then "KES" else currency),
          amountRequested := round2 amount,
          amountKes :=
            if jsToUpper (if currency = "" then "KES" else currency) = "KES"
            then amount
            else round2 (amount * effectiveRate kesPerUsd defaultRate),
          amountUsd :=
            if jsToUpper (if currency = "" then "KES" else currency) = "USD"
            then amount
            else round2 (amount / effectiveRate kesPerUsd defaultRate),
          rateKesPerUsd := round2 (effectiveRate kesPerUsd defaultRate),
          feeAmountKes := round2 (max 5
            ((if jsToUpper (if currency = "" then "KES" else currency) = "KES"
              then amount
              else round2 (amount * effectiveRate kesPerUsd defaultRate)) *
              ((FEE_BPS_BY_FLOW flowType).getD 150) / 10000)),
          networkFeeKes := round2 (if flowType = "onramp" then 0 else 3),
          totalDebitKes := round2
            ((if jsToUpper (if currency = "" then "KES" else currency) = "KES"
              then amount
              else round2 (amount * effectiveRate kesPerUsd defaultRate)) +
             round2 (max 5
               ((if jsToUpper (if currency = "" then "KES" else currency) = "KES"
                 then amount
                 else round2 (amount * effectiveRate kesPerUsd defaultRate)) *
                 ((FEE_BPS_BY_FLOW flowType).getD 150) / 10000)) +
             round2 (if flowType = "onramp" then 0 else 3)),
          expectedReceiveKes := round2
            (if jsToUpper (if currency = "" then "KES" else currency) = "KES"
             then amount
             else round2 (amount * effectiveRate kesPerUsd defaultRate)) } := by
    rw [buildQuote, if_neg (not_le.mpr hamt), if_neg (by
      rw [not_not]; exact hcurok)]
  have hakes0 : (0:ℚ) ≤
      (if jsToUpper (if currency = "" then "KES" else currency) = "KES"
       then amount
       else round2 (amount * effectiveRate kesPerUsd defaultRate)) := by
    rcases hcur with h | h <;> subst h
    · rw [if_pos (by decide)]
      exact le_of_lt hamt
    · rw [if_neg (by decide)]
      exact round2_nonneg _ (mul_nonneg (le_of_lt hamt) (le_of_lt hratepos))
  have hfee : (0:ℚ) ≤ round2 (max 5
      ((if jsToUpper (if currency = "" then "KES" else currency) = "KES"
        then amount
        else round2 (amount * effectiveRate kesPerUsd defaultRate)) *
        ((FEE_BPS_BY_FLOW flowType).getD 150) / 10000)) := by
    apply round2_nonneg
    have h5 := le_max_left (5:ℚ)
      ((if jsToUpper (if currency = "" then "KES" else currency) = "KES"
        then amount
        else round2 (amount * effectiveRate kesPerUsd defaultRate)) *
        ((FEE_BPS_BY_FLOW flowType).getD 150) / 10000)
    linarith
  have hnet : (0:ℚ) ≤ round2 (if flowType = "onramp" then (0:ℚ) else 3) := by
    apply round2_nonneg
    split <;> norm_num
  constructor
  · exact ⟨_, hbq⟩
  · intro q hq
    rw [hbq] at hq
    injection hq with hq
    subst hq
    refine ⟨rfl, rfl, rfl, rfl, rfl, ?_, ?_, rfl, rfl, hakes0, hfee, hnet, ?_, ?_⟩
    · intro hmem
      simp only [List.mem_cons, List.not_mem_nil, or_false, not_or] at hmem
      obtain ⟨h1, h2, h3, h4⟩ := hmem
      simp only [FEE_BPS_BY_FLOW, if_neg h1, if_neg h2, if_neg h3, if_neg h4]
      rfl
    · show round2 (if flowType = "onramp" then (0:ℚ) else 3) = _
      split <;> norm_num [round2, jsRound]
    · exact round2_nonneg _ (by linarith)
    · exact round2_nonneg _ hakes0

/-- Witness for C4: `buildQuote({flowType:"offramp", amount:10,
currency:"USD", kesPerUsd:155})` yields `amountKes=1550`,
`feeAmountKes=27.9`, `networkFeeKes=3`, `totalDebitKes=1580.9`,
`expectedReceiveKes=1550`. -/
theorem claim4_buildQuote_witness :
    ∃ q, buildQuote "offramp" 10 "USD" (some 155) 130 = Except.ok q ∧
      q.amountKes = 1550 ∧ q.amountUsd = 10 ∧ q.feeAmountKes = 279 / 10 ∧
      q.networkFeeKes = 3 ∧ q.totalDebitKes = 15809 / 10 ∧
      q.expectedReceiveKes = 1550 ∧
      q.totalDebitKes = round2 (q.amountKes + q.feeAmountKes + q.networkFeeKes) := by
  have hprops := (claim4_buildQuote "offramp" 10 "USD" (some 155) 130
    (by norm_num) (Or.inr rfl) (by norm_num)).2
  have hcu : jsToUpper (if ("USD" : String) = "" then "KES" else "USD") = "USD" := by
    decide
  have her : effectiveRate (some 155) 130 = 155 := by
    simp [effectiveRate]
  have heval : buildQuote "offramp" 10 "USD" (some 155) 130 =
      Except.ok
        { currency := "USD",
          amountRequested := 10,
          amountKes := 1550,
          amountUsd := 10,
          rateKesPerUsd := 155,
          feeAmountKes := 279 / 10,
          networkFeeKes := 3,
          totalDebitKes := 15809 / 10,
          expectedReceiveKes := 1550 } := by
    rw [buildQuote, if_neg (by norm_num), if_neg (by
      rw [not_not, hcu]
      right
      rfl)]
    rw [hcu, her]
    have hbps : (FEE_BPS_BY_FLOW "offramp").getD 150 = (180 : ℚ) := by
      simp [FEE_BPS_BY_FLOW]
    simp only [hbps,
      if_neg (show ¬ ("USD" : String) = "KES" by decide),
      if_pos (show ("USD" : String) = "USD" from rfl),
      if_neg (show ¬ ("offramp" : String) = "onramp" by decide)]
    norm_num [round2, jsRound, max_def]
  refine ⟨_, heval, rfl, rfl, rfl, rfl, rfl, rfl, ?_⟩
  exact (hprops _ heval).2.2.2.2.2.2.2.1

/-- Counterexample for C4 as stated: for the KES amount `0.001`,
`amountKes` is the raw requested amount `0.001` (a KES field that is not
rounded to 2 decimals), and `expectedReceiveKes = round2(amountKes) = 0 ≠
amountKes`, refuting both `expectedReceiveKes = amountKes` and `all KES
fields rounded to 2 decimals`. -/
theorem claim4_counterexample :
    ∃ q, buildQuote "offramp" (1 / 1000) "KES" (some 155) 130 = Except.ok q ∧
      q.amountKes = 1 / 1000 ∧ q.expectedReceiveKes = 0 ∧
      q.expectedReceiveKes ≠ q.amountKes ∧ round2 q.amountKes ≠ q.amountKes := by
  have hcu : jsToUpper (if ("KES" : String) = "" then "KES" else "KES") = "KES" := by
    decide
  have her : effectiveRate (some 155) 130 = 155 := by
    simp [effectiveRate]
  have heval : buildQuote "offramp" (1 / 1000) "KES" (some 155) 130 =
      Except.ok
        { currency := "KES",
          amountRequested := 0,
          amountKes := 1 / 1000,
          amountUsd := 0,
          rateKesPerUsd := 155,
          feeAmountKes := 5,
          networkFeeKes := 3,
          totalDebitKes := 8,
          expectedReceiveKes := 0 } := by
    rw [buildQuote, if_neg (by norm_num), if_neg (by
      rw [not_not, hcu]
      left
      rfl)]
    rw [hcu, her]
    have hbps : (FEE_BPS_BY_FLOW "offramp").getD 150 = (180 : ℚ) := by
      simp [FEE_BPS_BY_FLOW]
    simp only [hbps,
      if_pos (show ("KES" : String) = "KES" from rfl),
      if_neg (show ¬ ("KES" : String) = "USD" by decide),
      if_neg (show ¬ ("offramp" : String) = "onramp" by decide)]
    norm_num [round2, jsRound, max_def]
  refine ⟨_, heval, rfl, rfl, by norm_num, ?_⟩
  show round2 (1 / 1000) ≠ 1 / 1000
  norm_num [round2, jsRound]

/-- Value of a list of decimal digit characters. -/
def decDigitsVal (l : List Char) : ℕ :=
  l.foldl (fun a c => a * 10 + (c.toNat - 48)) 0

/-- Digit test for a radix-2/8/16 integer literal. -/
def isRadixDigit (radix : ℕ) (c : Char) : Bool :=
  (c.isDigit ∧ c.toNat - 48 < radix) ∨
    (radix = 16 ∧ (((Char.ofNat 97) ≤ c ∧ c ≤ (Char.ofNat 102)) ∨
      ((Char.ofNat 65) ≤ c ∧ c ≤ (Char.ofNat 70))))

/-- Value of a list of radix digits. -/
def radixVal (radix : ℕ) (l : List Char) : ℕ :=
  l.foldl (fun a c => a * radix +
    (if c.isDigit then c.toNat - 48
     else if 97 ≤ c.toNat then c.toNat - 87 else c.toNat - 55)) 0

/-- A `0x`/`0b`/`0o` integer literal body: non-empty digits of the radix. -/
def parseRadix (radix : ℕ) (l : List Char) : Option ℚ :=
  if l ≠ [] ∧ l.all (isRadixDigit radix) then some (radixVal radix l) else none

/-- The optional exponent tail of a JavaScript decimal literal: empty, or
`e`/`E` followed by an optionally signed non-empty digit string. -/
def jsExponentPart : List Char → Option ℤ
  | [] => some 0
  | e :: t =>
    if e = 'e' ∨ e = 'E' then
      match t with
      | [] => none
      | c :: t2 =>
        if c = '+' then
          if t2 ≠ [] ∧ t2.all Char.isDigit then some (decDigitsVal t2 : ℤ) else none
        else if c = '-' then
          if t2 ≠ [] ∧ t2.all Char.isDigit then some (-(decDigitsVal t2 : ℤ)) else none
        else
          if (c :: t2).all Char.isDigit then some (decDigitsVal (c :: t2) : ℤ) else none
    else none

/-- An unsigned JavaScript decimal literal `digits [. digits] [exp]` or
`. digits [exp]`; `none` is NaN. -/
def jsDecimal (l : List Char) : Option ℚ :=
  let intPart := l.takeWhile Char.isDigit
  let rest1 := l.dropWhile Char.isDigit
  match rest1 with
  | '.' :: t2 =>
    let fracPart := t2.takeWhile Char.isDigit
    let rest2 := t2.dropWhile Char.isDigit
    if intPart = [] ∧ fracPart = [] then none
    else
      match jsExponentPart rest2 with
      | none => none
      | some e => some (((decDigitsVal intPart : ℚ) +
          (decDigitsVal fracPart : ℚ) / 10 ^ fracPart.length) * 10 ^ e)
  | _ =>
    if intPart = [] then none
    else
      match jsExponentPart rest1 with
      | none => none
      | some e => some ((decDigitsVal intPart : ℚ) * 10 ^ e)

/-- An unsigned JavaScript string numeric literal: `Infinity` (not
finite, hence `none` here), a radix literal, or a decimal literal. -/
def jsUnsignedNumber (l : List Char) : Option ℚ :=
  if String.mk l = "Infinity" then none
  else
    match l with
    | '0' :: x :: t =>
        if x = 'x' ∨ x = 'X' then parseRadix 16 t
        else if x = 'b' ∨ x = 'B' then parseRadix 2 t
        else if x = 'o' ∨ x = 'O' then parseRadix 8 t
        else jsDecimal l
    | _ => jsDecimal l

/-- JavaScript `Number(s)` for an already-trimmed string `s`, as a finite
rational: `none` models NaN and the infinities. The empty string converts
to `0`; a sign is only legal on a decimal literal. -/
def jsStrToNumber (s : String) : Option ℚ :=
  match s.toList with
  | [] => some 0
  | c :: t =>
      if c = '+' then
        if String.mk t = "Infinity" then none else jsDecimal t
      else if c = '-' then
        if String.mk t = "Infinity" then none
        else (jsDecimal t).map (fun q => -q)
      else jsUnsignedNumber (c :: t)

/-- The JSON-ish values a webhook `ResultCode` field can hold. -/
inductive JsValue where
  | undefined
  | null
  | str (s : String)
  | num (n : ℤ)
deriving DecidableEq, Repr

/-- JavaScript `String(value)`. -/
def jsValueToString : JsValue → String
  | .undefined => "undefined"
  | .null => "null"
  | .str s => s
  | .num n => toString n

/-- The record returned by `parseResultCode` in the webhook router. -/
structure ResultCode where
  raw : Option String
  number : Option ℚ
  key : String
  isSuccess : Bool
deriving DecidableEq, Repr

/-- `parseResultCode(value)` of the webhook router
(`src/routes/mpesaWebhooks.js`): `raw` is the trimmed string or null,
`number` the finite numeric value or null, `key` the raw string or
`unknown`, and `isSuccess` is `raw === "0" || asNumber === 0`. -/
def parseResultCode (value : JsValue) : ResultCode :=
  let raw : Option String :=
    match value with
    | .undefined => none
    | .null => none
    | v =>
      let t := jsTrim (jsValueToString v)
      if t = "" then none else some t
  let asNumber : Option ℚ := raw.bind jsStrToNumber
  { raw := raw
    number := asNumber
    key := raw.getD "unknown"
    isSuccess := decide (raw = some "0" ∨ asNumber = some 0) }

/-- C9: the webhook result-code parser classifies a callback as success
exactly when the trimmed raw `ResultCode` string equals `0` or parses to
the finite number `0`; in particular `00`, `0.0`, `0x0` and the JSON
number `0` count as success, while absent, null, empty, non-numeric and
numerically nonzero codes are failures. -/
theorem claim9_parseResultCode_success :
    (∀ s : String, ((parseResultCode (.str s)).isSuccess = true ↔
      (jsTrim s = "0" ∨ (jsTrim s ≠ "" ∧ jsStrToNumber (jsTrim s) = some 0)))) ∧
    (parseResultCode .undefined).isSuccess = false ∧
    (parseResultCode .null).isSuccess = false ∧
    (parseResultCode (.str "00")).isSuccess = true ∧
    (parseResultCode (.str "0.0")).isSuccess = true ∧
    (parseResultCode (.str "0x0")).isSuccess = true ∧
    (parseResultCode (.num 0)).isSuccess = true ∧
    (parseResultCode (.str "")).isSuccess = false ∧
    (parseResultCode (.str "   ")).isSuccess = false ∧
    (parseResultCode (.str "abc")).isSuccess = false ∧
    (parseResultCode (.str "1")).isSuccess = false ∧
    (parseResultCode (.num 1)).isSuccess = false := by
  refine ⟨?_, ?_, ?_, ?_, ?_, ?_, ?_, ?_, ?_, ?_, ?_, ?_⟩
  · intro s
    by_cases h0 : jsTrim s = ""
    · simp [parseResultCode, jsValueToString, h0]
    · simp [parseResultCode, jsValueToString, h0]
  · simp [parseResultCode]
  · simp [parseResultCode]
  · simp [parseResultCode, jsValueToString, jsTrim, jsStrToNumber,
      jsUnsignedNumber, jsDecimal, jsExponentPart, decDigitsVal]
  · simp [parseResultCode, jsValueToString, jsTrim, jsStrToNumber,
      jsUnsignedNumber, jsDecimal, jsExponentPart, decDigitsVal]
  · simp [parseResultCode, jsValueToString, jsTrim, jsStrToNumber,
      jsUnsignedNumber, parseRadix, isRadixDigit, radixVal]
  · simp [parseResultCode, jsValueToString, jsTrim, jsStrToNumber,
      jsUnsignedNumber, jsDecimal, jsExponentPart, decDigitsVal,
      show toString (0 : ℤ) = "0" from rfl]
  · simp [parseResultCode, jsValueToString, jsTrim]
  · simp [parseResultCode, jsValueToString, jsTrim]
  · simp [parseResultCode, jsValueToString, jsTrim, jsStrToNumber,
      jsUnsignedNumber, jsDecimal, jsExponentPart, decDigitsVal]
  · simp [parseResultCode, jsValueToString, jsTrim, jsStrToNumber,
      jsUnsignedNumber, jsDecimal, jsExponentPart, decDigitsVal]
  · simp [parseResultCode, jsValueToString, jsTrim, jsStrToNumber,
      jsUnsignedNumber, jsDecimal, jsExponentPart, decDigitsVal,
      show toString (1 : ℤ) = "1" from rfl]

/-- JavaScript `String.prototype.toLowerCase` (ASCII, characterwise). -/
def jsToLower (s : String) : String :=
  String.mk (s.toList.map Char.toLower)

/-- JavaScript `String.prototype.split` with a character-class separator,
one split point per matching character. Splitting on runs (`/\s+/`)
differs only by producing no interior empty pieces; every caller below
filters out empty pieces (`filter(Boolean)`), so the two are
interchangeable there. -/
def jsSplitPred (p : Char → Bool) (s : String) : List String :=
  (s.toList.foldr
    (fun c acc =>
      match acc with
      | [] => if p c then [[], []] else [[c]]
      | h :: t => if p c then [] :: (h :: t) else (c :: h) :: t)
    [[]]).map String.mk

/-- The value a JWT payload's `scope` claim can hold. -/
inductive ScopeVal where
  | absent
  | str (s : String)
  | arr (l : List String)
deriving DecidableEq, Repr

/-- The JWT payload fields read by `middleware/requireBackendAuth.js`. -/
structure JwtPayload where
  sub : Option String
  address : Option String
  exp : Option ℤ
  nbf : Option ℤ
  scope : ScopeVal
deriving DecidableEq, Repr

/-- A structurally well-formed (three-part, decodable) bearer token: the
header's algorithm check and the HMAC-SHA256 signature comparison are
external crypto and enter as booleans. -/
structure DecodedJwt where
  algIsHS256 : Bool
  sigValid : Bool
  payload : JwtPayload
deriving DecidableEq, Repr

/-- `payload.exp && Number(payload.exp) < now` — `exp` is truthy iff
present and nonzero. -/
def jwtExpired (p : JwtPayload) (now : ℤ) : Bool :=
  match p.exp with
  | some e => decide (e ≠ 0 ∧ e < now)
  | none => false

/-- `payload.nbf && Number(payload.nbf) > now`. -/
def jwtNotBefore (p : JwtPayload) (now : ℤ) : Bool :=
  match p.nbf with
  | some e => decide (e ≠ 0 ∧ now < e)
  | none => false

/-- `!payload.address && !payload.sub` — both missing or empty. -/
def jwtMissingSubject (p : JwtPayload) : Bool :=
  decide ((p.address = none ∨ p.address = some "") ∧
    (p.sub = none ∨ p.sub = some ""))

/-- JavaScript `a || b || ""` over optional strings. -/
def firstTruthy (a b : Option String) : String :=
  match a with
  | some x => if x = "" then (match b with | some y => y | none => "") else x
  | none => match b with | some y => y | none => ""

/-- `verifyToken(token, secret)` of `middleware/requireBackendAuth.js`,
after base64url decoding succeeded (a malformed or undecodable token is
`none` at the call site). -/
def verifyToken (t : DecodedJwt) (now : ℤ) : Except String JwtPayload :=
  if t.algIsHS256 = false then Except.error "unsupported_alg"
  else if t.sigValid = false then Except.error "signature_mismatch"
  else if jwtExpired t.payload now then Except.error "expired"
  else if jwtNotBefore t.payload now then Except.error "not_before"
  else if jwtMissingSubject t.payload then Except.error "missing_subject"
  else Except.ok { t.payload with
    address := some (jsToLower (jsTrim (firstTruthy t.payload.address t.payload.sub))) }

/-- The scope list computed by `requireBackendAuth`: an array scope is
trimmed, lowercased and filtered; any other scope value is stringified
(absent becomes the empty string), trimmed, lowercased, split on
whitespace and filtered. -/
def scopesOf : ScopeVal → List String
  | .arr l => (l.map (fun x => jsToLower (jsTrim x))).filter (fun x => x ≠ "")
  | .str s =>
      (jsSplitPred Char.isWhitespace (jsToLower (jsTrim s))).filter (fun x => x ≠ "")
  | .absent =>
      (jsSplitPred Char.isWhitespace (jsToLower (jsTrim ""))).filter (fun x => x ≠ "")

/-- The outcome of the `requireBackendAuth` middleware. -/
inductive AuthDecision where
  | serverError (msg : String)
  | unauthorized (msg : String)
  | pass (payload : JwtPayload)
deriving DecidableEq, Repr

/-- `requireBackendAuth(req, res, next)` of
`middleware/requireBackendAuth.js`; `token` is `none` when the
`Authorization` header is missing or carries no bearer token or the token
is not decodable. -/
def requireBackendAuth (secret : String) (token : Option DecodedJwt)
    (now : ℤ) : AuthDecision :=
  if jsTrim secret = "" then
    .serverError "DOTPAY_BACKEND_JWT_SECRET is not configured."
  else
    match token with
    | none => .unauthorized "Missing bearer token."
    | some t =>
      match verifyToken t now with
      | .error _ => .unauthorized "Invalid or expired token."
      | .ok payload =>
        let scopes := scopesOf payload.scope
        if 0 < scopes.length ∧ ¬ scopes.contains "mpesa" then
          .unauthorized "Token scope is not allowed for M-Pesa endpoints."
        else
          .pass payload

/-- C7 (amended): on a bearer-authenticated mobile-money endpoint with
the secret configured, a validly signed HS256 token with a valid subject
and no not-before violation is rejected with 401 when expired; when
unexpired, it is rejected with the 401 scope message exactly when its
scope list is non-empty and does not contain `mpesa`, and it passes
through when the scope list contains `mpesa` or is empty (a token with no
scope at all passes the scope check). The scope string `users` yields the
list `[users]` (no `mpesa`), and `mpesa` yields `[mpesa]`. -/
theorem claim7_requireBackendAuth_scope (secret : String) (t : DecodedJwt)
    (now : ℤ) (hs : jsTrim secret ≠ "") (halg : t.algIsHS256 = true)
    (hsig : t.sigValid = true) (hnbf : jwtNotBefore t.payload now = false)
    (hsubj : jwtMissingSubject t.payload = false) :
    (jwtExpired t.payload now = true →
      requireBackendAuth secret (some t) now =
        AuthDecision.unauthorized "Invalid or expired token.") ∧
    (jwtExpired t.payload now = false →
      ((requireBackendAuth secret (some t) now =
          AuthDecision.unauthorized "Token scope is not allowed for M-Pesa endpoints.") ↔
        (scopesOf t.payload.scope ≠ [] ∧ "mpesa" ∉ scopesOf t.payload.scope)) ∧
      (("mpesa" ∈ scopesOf t.payload.scope ∨ scopesOf t.payload.scope = []) →
        ∃ p, requireBackendAuth secret (some t) now = AuthDecision.pass p)) ∧
    scopesOf (.str "users") = ["users"] ∧
    scopesOf (.str "mpesa") = ["mpesa"] ∧
    "mpesa" ∉ (["users"] : List String) := by
  refine ⟨?_, ?_, by decide, by decide, by decide⟩
  · intro hexp
    rw [requireBackendAuth, if_neg hs]
    rw [verifyToken, if_neg (by rw [halg]; simp), if_neg (by rw [hsig]; simp),
      if_pos hexp]
  · intro hexp
    have hv : verifyToken t now = Except.ok { t.payload with
        address := some (jsToLower (jsTrim (firstTruthy t.payload.address t.payload.sub))) } := by
      rw [verifyToken, if_neg (by rw [halg]; simp), if_neg (by rw [hsig]; simp),
        if_neg (by rw [hexp]; simp), if_neg (by rw [hnbf]; simp),
        if_neg (by rw [hsubj]; simp)]
    have hscope : scopesOf ({ t.payload with
        address := some (jsToLower (jsTrim (firstTruthy t.payload.address t.payload.sub))) 
        : JwtPayload }).scope = scopesOf t.payload.scope := rfl
    constructor
    · rw [requireBackendAuth, if_neg hs]
      rw [hv]
      dsimp only
      constructor
      · intro h
        by_cases hcond : 0 < (scopesOf t.payload.scope).length ∧
            ¬ (scopesOf t.payload.scope).contains "mpesa"
        · refine ⟨?_, ?_⟩
          · intro hnil
            rw [hnil] at hcond
            simp at hcond
          · intro hmem
            exact hcond.2 (List.elem_iff.mpr hmem)
        · rw [if_neg (by simpa using hcond)] at h
          cases h
      · intro ⟨hnil, hmem⟩
        rw [if_pos (by
          refine ⟨?_, ?_⟩
          · cases hl : scopesOf t.payload.scope with
            | nil => exact absurd hl hnil
            | cons a l => simp [hl]
          · intro hc
            exact hmem (List.elem_iff.mp hc))]
    · intro hok
      rw [requireBackendAuth, if_neg hs, hv]
      dsimp only
      rw [if_neg (by
        rcases hok with hmem | hnil
        · intro ⟨_, hc⟩
          exact hc (List.elem_iff.mpr hmem)
        · intro ⟨hlen, _⟩
          rw [hnil] at hlen
          simp at hlen)]
      exact ⟨_, rfl⟩

/-- A validly signed, unexpired token whose scope is `users`. -/
def tUsers : DecodedJwt :=
  { algIsHS256 := true, sigValid := true,
    payload :=
      { sub := some "user1", address := none, exp := some 9999, nbf := none,
        scope := .str "users" } }

/-- A validly signed, unexpired token whose scope is `mpesa`. -/
def tMpesa : DecodedJwt :=
  { algIsHS256 := true, sigValid := true,
    payload :=
      { sub := some "user1", address := none, exp := some 9999, nbf := none,
        scope := .str "mpesa" } }

/-- A validly signed token that expired at 50 (now is 100). -/
def tExpired : DecodedJwt :=
  { algIsHS256 := true, sigValid := true,
    payload :=
      { sub := some "user1", address := none, exp := some 50, nbf := none,
        scope := .str "mpesa" } }

/-- A validly signed, unexpired token with no scope claim at all. -/
def tNoScope : DecodedJwt :=
  { algIsHS256 := true, sigValid := true,
    payload :=
      { sub := some "user1", address := none, exp := some 9999, nbf := none,
        scope := .absent } }

/-- Witness for C7: scope `users` is rejected with the 401 scope message,
scope `mpesa` passes through, and an expired token is rejected with 401. -/
theorem claim7_requireBackendAuth_scope_witness :
    requireBackendAuth "secret" (some tUsers) 100 =
      AuthDecision.unauthorized "Token scope is not allowed for M-Pesa endpoints." ∧
    (∃ p, requireBackendAuth "secret" (some tMpesa) 100 = AuthDecision.pass p) ∧
    requireBackendAuth "secret" (some tExpired) 100 =
      AuthDecision.unauthorized "Invalid or expired token." := by
  have h1 := claim7_requireBackendAuth_scope "secret" tUsers 100 (by decide)
    rfl rfl (by decide) (by decide)
  have h2 := claim7_requireBackendAuth_scope "secret" tMpesa 100 (by decide)
    rfl rfl (by decide) (by decide)
  have h3 := claim7_requireBackendAuth_scope "secret" tExpired 100 (by decide)
    rfl rfl (by decide) (by decide)
  refine ⟨?_, ?_, ?_⟩
  · exact ((h1.2.1 (by decide)).1).mpr (by decide)
  · exact (h2.2.1 (by decide)).2 (Or.inl (by decide))
  · exact h3.1 (by decide)

/-- Counterexample for C7 as stated: a validly signed, unexpired token
with no scope claim at all passes the scope check (the code only rejects
when the scope list is non-empty and lacks `mpesa`), instead of being
rejected with 401 as the claim asserts. -/
theorem claim7_no_scope_counterexample :
    requireBackendAuth "secret" (some tNoScope) 100 =
      AuthDecision.pass
        { sub := some "user1",
          address := some "user1",
          exp := some 9999,
          nbf := none,
          scope := .absent } ∧
    ∀ m, requireBackendAuth "secret" (some tNoScope) 100 ≠
      AuthDecision.unauthorized m := by
  have h : requireBackendAuth "secret" (some tNoScope) 100 =
      AuthDecision.pass
        { sub := some "user1",
          address := some "user1",
          exp := some 9999,
          nbf := none,
          scope := .absent } := by decide
  refine ⟨h, ?_⟩
  intro m hm
  rw [h] at hm
  cases hm

/-- JavaScript `a || b` for an optional string versus a default. -/
def jsOr (a : Option String) (b : String) : String :=
  match a with
  | some s => if s = "" then b else s
  | none => b

/-- Configuration read by `services/mpesa/refundService.js`. -/
structure RefundConfig where
  autoRefund : Bool
  env : String
  treasuryRpcUrl : String
  treasuryPrivateKey : String
  treasuryUsdcContract : String
  refundEnabled : Bool
  usdcDecimals : ℤ
deriving DecidableEq, Repr

/-- `hasTreasuryConfig()` of `refundService.js`:
`Boolean(treasury.rpcUrl && treasury.privateKey && treasury.usdcContract)`. -/
def hasTreasuryConfig (cfg : RefundConfig) : Bool :=
  cfg.treasuryRpcUrl ≠ "" ∧ cfg.treasuryPrivateKey ≠ "" ∧
    cfg.treasuryUsdcContract ≠ ""

/-- The regex `/^0x[a-f0-9]{40}$/` on an already-lowercased string. -/
def isHexAddress (s : String) : Bool :=
  s.toList.length = 42 ∧ s.toList.take 2 = ['0', 'x'] ∧
    (s.toList.drop 2).all (fun c => c.isDigit ∨
      ((Char.ofNat 97) ≤ c ∧ c ≤ (Char.ofNat 102)))

/-- `getRefundRecipient(transaction)` of `refundService.js`: prefer
`onchain.fromAddress`, else `authorization.signerAddress`, else
`userAddress`; each trimmed and lowercased and required to be a 20-byte
hex address, else the empty string. -/
def getRefundRecipient (tx : Transaction) : String :=
  let fromAddress := jsToLower (jsTrim (tx.onchain.fromAddress.getD ""))
  if isHexAddress fromAddress then fromAddress
  else
    let signerAddress := jsToLower (jsTrim (tx.authorization.signerAddress.getD ""))
    if isHexAddress signerAddress then signerAddress
    else
      let userAddress := jsToLower (jsTrim tx.userAddress)
      if isHexAddress userAddress then userAddress
      else ""

/-- `getRefundAmountUsd(transaction)` of `refundService.js`: prefer a
positive `onchain.fundedAmountUsd`, else a positive
`onchain.expectedAmountUsd`, else `max 0 quote.amountUsd`. -/
def getRefundAmountUsd (tx : Transaction) : ℚ :=
  if 0 < tx.onchain.fundedAmountUsd then tx.onchain.fundedAmountUsd
  else if 0 < tx.onchain.expectedAmountUsd then tx.onchain.expectedAmountUsd
  else max 0 ((tx.quote.map Quote.amountUsd).getD 0)

/-- `pseudoRefundReference()` of `refundService.js`: `RF_` followed by a
base36 timestamp and random hex, both supplied by the environment as
`suffix`. -/
def pseudoRefundReference (suffix : String) : String :=
  "RF_" ++ suffix

/-- `executeOnchainRefund(transaction)` of `refundService.js`: the pure
guards, with the actual ERC-20 `transfer` plus receipt wait abstracted as
`chainTransfer` (`ok txHash`, or `error` for an RPC failure or a receipt
with status ≠ 1). `amountUnits = parseUnits(amountUsd.toFixed(decimals),
decimals)` is `jsRound (amountUsd * 10^decimals)`. -/
def executeOnchainRefund (cfg : RefundConfig) (tx : Transaction)
    (chainTransfer : Except String String) : Except String String :=
  if cfg.refundEnabled = false then
    Except.error "Treasury refund is disabled."
  else if ¬ hasTreasuryConfig cfg then
    Except.error "Missing treasury refund configuration."
  else if ¬ isHexAddress (getRefundRecipient tx) then
    Except.error "Refund recipient address is invalid."
  else if getRefundAmountUsd tx ≤ 0 then
    Except.error "Refund amount must be greater than zero."
  else if jsRound (getRefundAmountUsd tx *
      10 ^ (max 0 (min 18 cfg.usdcDecimals)).toNat) ≤ 0 then
    Except.error "Refund amount rounds to zero."
  else
    chainTransfer

/-- `executeRefund(transaction)` of `refundService.js`: on-chain when the
treasury is configured and refunds are enabled; otherwise a simulated
pseudo-reference in sandbox; otherwise a configuration error. Returns
`(txHash, mode)`. -/
def executeRefund (cfg : RefundConfig) (tx : Transaction)
    (chainTransfer : Except String String) (refSuffix : String) :
    Except String (String × String) :=
  if hasTreasuryConfig cfg ∧ cfg.refundEnabled then
    (executeOnchainRefund cfg tx chainTransfer).map (fun h => (h, "onchain"))
  else if cfg.env = "sandbox" then
    Except.ok (pseudoRefundReference refSuffix, "simulated")
  else
    Except.error "Treasury refund config is required in production."

/-- `scheduleAutoRefund(transaction, reason)` of `refundService.js`. -/
def scheduleAutoRefund (cfg : RefundConfig) (tx : Transaction)
    (reason : Option String) (chainTransfer : Except String String)
    (refSuffix : String) (now : Nat) : Except String Transaction :=
  if cfg.autoRefund = false then Except.ok tx
  else if ¬ (["offramp", "paybill", "buygoods"].contains tx.flowType) then
    Except.ok tx
  else if tx.status ≠ Status.failed then Except.ok tx
  else
    match assertTransition tx .refund_pending
        (some (jsOr reason "Auto refund pending")) "refund_service" now with
    | .error e => .error e
    | .ok tx1 =>
      let tx2 := { tx1 with
        refund := { tx1.refund with
          status := "pending",
          reason := some (jsOr reason "Auto refund"),
          initiatedAt := some now } }
      match executeRefund cfg tx2 chainTransfer refSuffix with
      | .ok (h, mode) =>
        let tx3 := { tx2 with
          refund := { tx2.refund with
            status := "completed",
            txHash := some h,
            completedAt := some now,
            reason := some (jsOr reason "Auto refund completed") } }
        assertTransition tx3 .refunded
          (some (if mode = "onchain" then "Auto refund completed on-chain"
                 else "Auto refund completed (sandbox simulation)"))
          "refund_service" now
      | .error e =>
        let tx3 := { tx2 with
          refund := { tx2.refund with
            status := "failed",
            reason := some (jsOr reason "Auto refund failed" ++ ": " ++ e),
            completedAt := some now } }
        assertTransition tx3 .failed (some "Auto refund failed")
          "refund_service" now

lemma assertTransition_ok (tx : Transaction) (to_ : Status)
    (reason : Option String) (source : String) (now : Nat)
    (hne : tx.status ≠ to_) (hmem : to_ ∈ ALLOWED_TRANSITIONS tx.status) :
    assertTransition tx to_ reason source now = Except.ok
      { tx with
        status := to_,
        history := tx.history ++
          [{ from_ := tx.status, to_ := to_,
             reason := reason.bind (fun r => if r = "" then none else some r),
             source := source, at_ := now }] } := by
  have hc : canTransition tx.status to_ = true :=
    (canTransition_iff _ _).mpr (Or.inr hmem)
  simp [assertTransition, hc, hne]

lemma executeRefund_update (cfg : RefundConfig) (tx : Transaction)
    (st : Status) (hist : List HistoryEntry) (ref : RefundInfo)
    (c : Except String String) (r : String) :
    executeRefund cfg { tx with status := st, history := hist, refund := ref } c r =
      executeRefund cfg tx c r := rfl

lemma executeRefund_sandbox (cfg : RefundConfig) (tx : Transaction)
    (c : Except String String) (r : String)
    (hcfg : hasTreasuryConfig cfg = false) (henv : cfg.env = "sandbox") :
    executeRefund cfg tx c r = Except.ok ("RF_" ++ r, "simulated") := by
  rw [executeRefund, if_neg (by rw [hcfg]; simp), if_pos henv]
  rfl

/-- C8: `scheduleAutoRefund` acts only on funded flows (offramp, paybill,
buygoods) in status `failed`, and is a no-op returning the transaction
unchanged for any other flow or status; with auto-refund on, treasury
unconfigured and a sandbox environment it terminates with status
`refunded`, `refund.status = "completed"` and a `refund.txHash` that
starts with `RF_`; and when refund execution throws it leaves
`refund.status = "failed"` and transitions `refund_pending` back to
`failed`. -/
theorem claim8_scheduleAutoRefund (cfg : RefundConfig) (tx : Transaction)
    (reason : Option String) (chainTransfer : Except String String)
    (refSuffix : String) (now : Nat) :
    (["offramp", "paybill", "buygoods"].contains tx.flowType = false →
      scheduleAutoRefund cfg tx reason chainTransfer refSuffix now = Except.ok tx) ∧
    (tx.status ≠ Status.failed →
      scheduleAutoRefund cfg tx reason chainTransfer refSuffix now = Except.ok tx) ∧
    (cfg.autoRefund = true →
      ["offramp", "paybill", "buygoods"].contains tx.flowType = true →
      tx.status = Status.failed →
      hasTreasuryConfig cfg = false → cfg.env = "sandbox" →
      ∃ tx', scheduleAutoRefund cfg tx reason chainTransfer refSuffix now =
          Except.ok tx' ∧
        tx'.status = Status.refunded ∧ tx'.refund.status = "completed" ∧
        tx'.refund.txHash = some ("RF_" ++ refSuffix)) ∧
    (cfg.autoRefund = true →
      ["offramp", "paybill", "buygoods"].contains tx.flowType = true →
      tx.status = Status.failed →
      ∀ e, executeRefund cfg tx chainTransfer refSuffix = Except.error e →
      ∃ tx', scheduleAutoRefund cfg tx reason chainTransfer refSuffix now =
          Except.ok tx' ∧
        tx'.status = Status.failed ∧ tx'.refund.status = "failed" ∧
        ∃ e1 e2, tx'.history = tx.history ++ [e1, e2] ∧
          e1.from_ = Status.failed ∧ e1.to_ = Status.refund_pending ∧
          e2.from_ = Status.refund_pending ∧ e2.to_ = Status.failed) := by
  refine ⟨?_, ?_, ?_, ?_⟩
  · intro hflow
    by_cases hauto : cfg.autoRefund = false
    · rw [scheduleAutoRefund, if_pos hauto]
    · rw [scheduleAutoRefund, if_neg hauto, if_pos (by rw [hflow]; simp)]
  · intro hstat
    by_cases hauto : cfg.autoRefund = false
    · rw [scheduleAutoRefund, if_pos hauto]
    · rw [scheduleAutoRefund, if_neg hauto]
      by_cases hflow : ["offramp", "paybill", "buygoods"].contains tx.flowType
      · rw [if_neg (by rw [hflow]; simp), if_pos hstat]
      · rw [if_pos (by simpa using hflow)]
  · intro hauto hflow hstat hcfg henv
    rw [scheduleAutoRefund, if_neg (by rw [hauto]; simp),
      if_neg (by rw [hflow]; simp), if_neg (by rw [hstat]; simp),
      assertTransition_ok tx .refund_pending _ _ _
        (by rw [hstat]; decide) (by rw [hstat]; decide)]
    dsimp only
    rw [executeRefund_sandbox cfg _ chainTransfer refSuffix hcfg henv]
    dsimp only
    rw [assertTransition_ok _ .refunded _ _ _
      (show Status.refund_pending ≠ Status.refunded by decide)
      (show Status.refunded ∈ ALLOWED_TRANSITIONS Status.refund_pending by decide)]
    exact ⟨_, rfl, rfl, rfl, rfl⟩
  · intro hauto hflow hstat e hthrow
    rw [scheduleAutoRefund, if_neg (by rw [hauto]; simp),
      if_neg (by rw [hflow]; simp), if_neg (by rw [hstat]; simp),
      assertTransition_ok tx .refund_pending _ _ _
        (by rw [hstat]; decide) (by rw [hstat]; decide)]
    dsimp only
    rw [executeRefund_update, hthrow]
    dsimp only
    rw [assertTransition_ok _ .failed _ _ _
      (show Status.refund_pending ≠ Status.failed by decide)
      (show Status.failed ∈ ALLOWED_TRANSITIONS Status.refund_pending by decide)]
    refine ⟨_, rfl, rfl, rfl,
      { from_ := tx.status, to_ := Status.refund_pending,
        reason := (some (jsOr reason "Auto refund pending")).bind
          (fun r => if r = "" then none else some r),
        source := "refund_service", at_ := now },
      { from_ := Status.refund_pending, to_ := Status.failed,
        reason := (some "Auto refund failed").bind
          (fun r => if r = "" then none else some r),
        source := "refund_service", at_ := now },
      by simp, hstat, rfl, rfl, rfl⟩

/-- A sandbox configuration with no treasury configured. -/
def cfgSandbox : RefundConfig :=
  { autoRefund := true, env := "sandbox", treasuryRpcUrl := "",
    treasuryPrivateKey := "", treasuryUsdcContract := "",
    refundEnabled := true, usdcDecimals := 6 }

/-- A failed offramp transaction. -/
def txFailedOfframp : Transaction :=
  { txQuoted with status := Status.failed }

/-- A failed onramp transaction (not refund-eligible). -/
def txFailedOnramp : Transaction :=
  { txQuoted with flowType := "onramp", status := Status.failed }

/-- Witness for C8: with the treasury unconfigured in sandbox, a failed
offramp terminates refunded/completed with an `RF_`-prefixed pseudo
transaction hash, while the same call on an onramp is a no-op. -/
theorem claim8_scheduleAutoRefund_witness :
    scheduleAutoRefund cfgSandbox txFailedOnramp none
      (Except.error "no rpc") "X1" 7 = Except.ok txFailedOnramp ∧
    ∃ tx', scheduleAutoRefund cfgSandbox txFailedOfframp none
        (Except.error "no rpc") "X1" 7 = Except.ok tx' ∧
      tx'.status = Status.refunded ∧ tx'.refund.status = "completed" ∧
      tx'.refund.txHash = some "RF_X1" := by
  constructor
  · exact (claim8_scheduleAutoRefund cfgSandbox txFailedOnramp none
      (Except.error "no rpc") "X1" 7).1 (by decide)
  · exact (claim8_scheduleAutoRefund cfgSandbox txFailedOfframp none
      (Except.error "no rpc") "X1" 7).2.2.1 rfl (by decide) rfl (by decide) rfl

/-- `normalizeAddress(value)` of
`services/settlement/verifyUsdcFunding.js`. -/
def normalizeAddress (s : String) : String := jsToLower (jsTrim s)

/-- A decoded ERC-20 `Transfer(from, to, value)` event. -/
structure TransferEvent where
  from_ : String
  to_ : String
  value : ℕ
deriving DecidableEq, Repr

/-- One receipt log as consumed by `verifyUsdcFunding`: its emitting
address, the decoded `Transfer` if `ERC20_IFACE.parseLog` succeeds and
names a `Transfer` (else `none`), and its `logIndex` (`none` when the
field is null or undefined). -/
structure ReceiptLog where
  address : String
  parsed : Option TransferEvent
  logIndex : Option ℤ
deriving DecidableEq, Repr

/-- A log the claim calls matching: emitted by the token contract and
decoding to a `Transfer` whose sender is the expected funder and whose
recipient is the treasury. -/
def isMatchingLog (usdcContract expectedFrom treasuryAddress : String)
    (log : ReceiptLog) : Bool :=
  if normalizeAddress log.address ≠ usdcContract then false
  else
    match log.parsed with
    | none => false
    | some ev =>
      if normalizeAddress ev.from_ ≠ expectedFrom ∨
          normalizeAddress ev.to_ ≠ treasuryAddress then false
      else true

/-- The transfer value a log contributes (0 when it does not decode). -/
def logValue (log : ReceiptLog) : ℕ :=
  match log.parsed with
  | some ev => ev.value
  | none => 0

/-- A matching log with strictly positive value — the logs the loop
actually accumulates. -/
def isPositiveMatch (usdcContract expectedFrom treasuryAddress : String)
    (log : ReceiptLog) : Bool :=
  isMatchingLog usdcContract expectedFrom treasuryAddress log ∧ 0 < logValue log

/-- The `firstMatchLogIndex` update of `verifyUsdcFunding`: keep the
smaller known index; a null index never displaces a known one. -/
def combineMin : Option ℤ → Option ℤ → Option ℤ
  | none, b => b
  | some c, none => some c
  | some c, some i => some (min i c)

/-- One iteration of the `for (const log of receipt.logs)` loop of
`verifyUsdcFunding` (lines 115-142), on the accumulator
`(fundedAmountUnits, firstMatchLogIndex)`. -/
def scanStep (usdcContract expectedFrom treasuryAddress : String)
    (acc : ℕ × Option ℤ) (log : ReceiptLog) : ℕ × Option ℤ :=
  if normalizeAddress log.address ≠ usdcContract then acc
  else
    match log.parsed with
    | none => acc
    | some ev =>
      if normalizeAddress ev.from_ ≠ expectedFrom ∨
          normalizeAddress ev.to_ ≠ treasuryAddress then acc
      else if ev.value ≤ 0 then acc
      else
        (acc.1 + ev.value,
          match acc.2, log.logIndex with
          | none, some i => some i
          | none, none => none
          | some c, some i => if i < c then some i else some c
          | some c, none => some c)

/-- The whole loop of `verifyUsdcFunding` over the receipt logs. -/
def scanFundingLogs (usdcContract expectedFrom treasuryAddress : String)
    (logs : List ReceiptLog) : ℕ × Option ℤ :=
  logs.foldl (scanStep usdcContract expectedFrom treasuryAddress) (0, none)

/-- The verdict of `verifyUsdcFunding` restricted to its fields computed
from the logs. -/
structure FundingResult where
  fundedAmountUnits : ℕ
  logIndex : Option ℤ
deriving DecidableEq, Repr

/-- The log-summation and threshold stage of `verifyUsdcFunding` (lines
112-170); the preceding RPC steps (input validation, chain-id check,
receipt fetch, confirmations) are external I/O and are not modelled. -/
def verifyUsdcFundingLogs (usdcContract expectedFrom treasuryAddress : String)
    (logs : List ReceiptLog) (expectedMinAmountUnits : ℕ) :
    Except String FundingResult :=
  let scanned := scanFundingLogs usdcContract expectedFrom treasuryAddress logs
  if scanned.1 ≤ 0 then
    Except.error "On-chain transfer proof not found."
  else if scanned.1 < expectedMinAmountUnits then
    Except.error "Funding transfer is below the required amount."
  else
    Except.ok { fundedAmountUnits := scanned.1, logIndex := scanned.2 }

/-- Minimum of a list of integers, `none` on the empty list. -/
def listMinZ : List ℤ → Option ℤ
  | [] => none
  | x :: xs =>
    match listMinZ xs with
    | none => some x
    | some m => some (min x m)

lemma scanStep_fst (c f t : String) (acc : ℕ × Option ℤ) (l : ReceiptLog) :
    (scanStep c f t acc l).1 =
      acc.1 + (if isMatchingLog c f t l then logValue l else 0) := by
  rw [scanStep, isMatchingLog]
  split
  · simp
  · cases hp : l.parsed with
    | none => simp [logValue, hp]
    | some ev =>
      simp only [logValue, hp]
      split
      · simp
      · split
        · rename_i hv
          simp at hv
          simp [hv]
        · simp

lemma scanStep_snd (c f t : String) (acc : ℕ × Option ℤ) (l : ReceiptLog) :
    (scanStep c f t acc l).2 =
      if isPositiveMatch c f t l then combineMin acc.2 l.logIndex else acc.2 := by
  rw [scanStep, isPositiveMatch, isMatchingLog]
  split
  · simp
  · cases hp : l.parsed with
    | none => simp [logValue, hp]
    | some ev =>
      simp only [logValue, hp]
      split
      · simp
      · split
        · rename_i hv
          simp at hv
          simp [hv]
        · rename_i hv
          simp only [not_le] at hv
          rw [if_pos (by simp [hv, logValue])]
          cases acc.2 with
          | none =>
            cases l.logIndex <;> simp [combineMin]
          | some cmin =>
            cases l.logIndex with
            | none => simp [combineMin]
            | some i =>
              simp only [combineMin]
              split
              · rename_i hlt
                simp [min_eq_left (le_of_lt hlt)]
              · rename_i hlt
                simp [min_eq_right (show cmin ≤ i by omega)]

lemma combineMin_none (a : Option ℤ) : combineMin a none = a := by
  cases a <;> rfl

lemma scan_foldl_fst (c f t : String) (logs : List ReceiptLog) :
    ∀ acc : ℕ × Option ℤ, (logs.foldl (scanStep c f t) acc).1 =
      acc.1 + ((logs.filter (fun l => isMatchingLog c f t l)).map logValue).sum := by
  induction logs with
  | nil => intro acc; simp
  | cons l ls ih =>
    intro acc
    rw [List.foldl_cons, ih, scanStep_fst, List.filter_cons]
    by_cases hm : isMatchingLog c f t l
    · simp [hm]
      omega
    · simp [hm]

lemma scan_foldl_snd (c f t : String) (logs : List ReceiptLog) :
    ∀ acc : ℕ × Option ℤ, (logs.foldl (scanStep c f t) acc).2 =
      ((logs.filter (fun l => isPositiveMatch c f t l)).filterMap
        (fun l => l.logIndex)).foldl (fun a i => combineMin a (some i)) acc.2 := by
  induction logs with
  | nil => intro acc; simp
  | cons l ls ih =>
    intro acc
    rw [List.foldl_cons, ih, List.filter_cons]
    by_cases hm : isPositiveMatch c f t l
    · rw [if_pos (by exact hm), List.filterMap_cons]
      cases hi : l.logIndex with
      | none =>
        rw [scanStep_snd, if_pos hm, hi, combineMin_none]
      | some i =>
        rw [scanStep_snd, if_pos hm, hi]
        rfl
    · rw [if_neg (by exact hm), scanStep_snd, if_neg hm]

lemma foldl_combineMin (l : List ℤ) :
    ∀ m : Option ℤ, l.foldl (fun a i => combineMin a (some i)) m =
      combineMin m (listMinZ l) := by
  induction l with
  | nil =>
    intro m
    cases m <;> rfl
  | cons x xs ih =>
    intro m
    rw [List.foldl_cons, ih]
    cases m with
    | none =>
      cases hxs : listMinZ xs with
      | none => simp [combineMin, listMinZ, hxs]
      | some k =>
        simp [combineMin, listMinZ, hxs]
        exact min_comm k x
    | some cm =>
      cases hxs : listMinZ xs with
      | none => simp [combineMin, listMinZ, hxs]
      | some k =>
        simp only [combineMin, listMinZ, hxs]
        congr 1
        omega
    

/-- C3 (amended): the scan of `verifyUsdcFunding` sums the ERC-20
`Transfer` values over exactly the receipt logs emitted by the token
contract from the expected funder to the treasury; the retained
`logIndex` is the lowest among the matching logs with positive value
(a zero-value matching log is skipped before the index update);
verification succeeds only with that sum at least
`expectedMinAmountUnits` and fails whenever the sum is smaller. -/
theorem claim3_verifyUsdcFundingLogs (c f t : String)
    (logs : List ReceiptLog) (expectedMin : ℕ) :
    (scanFundingLogs c f t logs).1 =
      ((logs.filter (fun l => isMatchingLog c f t l)).map logValue).sum ∧
    (scanFundingLogs c f t logs).2 =
      listMinZ ((logs.filter (fun l => isPositiveMatch c f t l)).filterMap
        (fun l => l.logIndex)) ∧
    (∀ res, verifyUsdcFundingLogs c f t logs expectedMin = Except.ok res →
      res.fundedAmountUnits =
        ((logs.filter (fun l => isMatchingLog c f t l)).map logValue).sum ∧
      expectedMin ≤ res.fundedAmountUnits ∧
      res.logIndex =
        listMinZ ((logs.filter (fun l => isPositiveMatch c f t l)).filterMap
          (fun l => l.logIndex))) ∧
    (((logs.filter (fun l => isMatchingLog c f t l)).map logValue).sum < expectedMin →
      throws (verifyUsdcFundingLogs c f t logs expectedMin)) := by
  have hfst : (scanFundingLogs c f t logs).1 =
      ((logs.filter (fun l => isMatchingLog c f t l)).map logValue).sum := by
    rw [scanFundingLogs, scan_foldl_fst]
    simp
  have hsnd : (scanFundingLogs c f t logs).2 =
      listMinZ ((logs.filter (fun l => isPositiveMatch c f t l)).filterMap
        (fun l => l.logIndex)) := by
    rw [scanFundingLogs, scan_foldl_snd, foldl_combineMin]
    rfl
  refine ⟨hfst, hsnd, ?_, ?_⟩
  · intro res hres
    rw [verifyUsdcFundingLogs] at hres
    by_cases h0 : (scanFundingLogs c f t logs).1 ≤ 0
    · rw [if_pos h0] at hres
      cases hres
    · rw [if_neg h0] at hres
      by_cases hmin : (scanFundingLogs c f t logs).1 < expectedMin
      · rw [if_pos hmin] at hres
        cases hres
      · rw [if_neg hmin] at hres
        injection hres with hres
        subst hres
        exact ⟨hfst, le_of_not_lt hmin, hsnd⟩
  · intro hlt
    rw [verifyUsdcFundingLogs]
    by_cases h0 : (scanFundingLogs c f t logs).1 ≤ 0
    · rw [if_pos h0]
      exact ⟨_, rfl⟩
    · rw [if_neg h0, if_pos (by rw [hfst]; exact hlt)]
      exact ⟨_, rfl⟩

/-- A zero-value `Transfer` from the funder to the treasury at index 0. -/
def logZero : ReceiptLog :=
  { address := "0xtoken",
    parsed := some { from_ := "0xalice", to_ := "0xtreasury", value := 0 },
    logIndex := some 0 }

/-- A 5-unit `Transfer` from the funder to the treasury at index 1. -/
def logFive : ReceiptLog :=
  { address := "0xtoken",
    parsed := some { from_ := "0xalice", to_ := "0xtreasury", value := 5 },
    logIndex := some 1 }

/-- Counterexample for C3 as stated: with a zero-value matching transfer
at logIndex 0 and a 5-unit matching transfer at logIndex 1, the code
retains logIndex 1, but the lowest logIndex among the matching logs (as
the claim defines matching, by token, from and to alone) is 0: the
`amount <= 0` skip happens before the index update. -/
theorem claim3_zero_value_counterexample :
    verifyUsdcFundingLogs "0xtoken" "0xalice" "0xtreasury" [logZero, logFive] 1 =
      Except.ok { fundedAmountUnits := 5, logIndex := some 1 } ∧
    listMinZ (([logZero, logFive].filter
      (fun l => isMatchingLog "0xtoken" "0xalice" "0xtreasury" l)).filterMap
      (fun l => l.logIndex)) = some 0 ∧
    (some (1 : ℤ)) ≠ some (0 : ℤ) := by
  refine ⟨by decide, by decide, by decide⟩

/-- Witness for C3: a single 5-unit matching transfer verifies against a
minimum of 3 with the sum 5 and logIndex 1, and is rejected against a
minimum of 9 because the sum is below the requirement. -/
theorem claim3_verifyUsdcFundingLogs_witness :
    verifyUsdcFundingLogs "0xtoken" "0xalice" "0xtreasury" [logFive] 3 =
      Except.ok { fundedAmountUnits := 5, logIndex := some 1 } ∧
    throws (verifyUsdcFundingLogs "0xtoken" "0xalice" "0xtreasury" [logFive] 9) := by
  constructor
  · decide
  · exact (claim3_verifyUsdcFundingLogs "0xtoken" "0xalice" "0xtreasury"
      [logFive] 9).2.2.2 (by decide)

/-- JavaScript `a || b || null` over optional strings. -/
def jsOrNull (a b : Option String) : Option String :=
  if a.getD "" ≠ "" then a
  else if b.getD "" ≠ "" then b
  else none

/-- The fields of an STK callback body the handler reads:
`Body.stkCallback.CheckoutRequestID`, `MerchantRequestID`, `ResultCode`,
`ResultDesc` (raw), and the `MpesaReceiptNumber` metadata item already
extracted and trimmed (`none` when the metadata array is absent or has no
such item). -/
structure StkCallback where
  checkoutRequestId : Option String
  merchantRequestId : Option String
  resultCode : JsValue
  resultDesc : Option String
  receiptNumber : Option String
deriving DecidableEq, Repr

/-- The dedup key of the STK handler:
`stk:${tx.transactionId}:${checkoutRequestId || "none"}:${parsedCode.key}`. -/
def stkEventKey (tx : Transaction) (cb : StkCallback) : String :=
  "stk:" ++ tx.transactionId ++ ":" ++ jsOr cb.checkoutRequestId "none" ++ ":" ++
    (parseResultCode cb.resultCode).key

/-- The `tx.daraja = { ... }` merge of the STK handler (the raw
callback blob is opaque and omitted). -/
def mergeStkDaraja (tx : Transaction) (cb : StkCallback) (now : Nat) :
    Transaction :=
  let parsed := parseResultCode cb.resultCode
  { tx with
    daraja := {
      merchantRequestId := jsOrNull cb.merchantRequestId tx.daraja.merchantRequestId,
      checkoutRequestId := jsOrNull cb.checkoutRequestId tx.daraja.checkoutRequestId,
      resultCode := parsed.number,
      resultCodeRaw := parsed.raw,
      resultDesc :=
        (if jsTrim (cb.resultDesc.getD "") = "" then none
         else some (jsTrim (cb.resultDesc.getD ""))),
      receiptNumber := jsOrNull cb.receiptNumber tx.daraja.receiptNumber,
      callbackReceivedAt := some now } }

/-- The state-transition stage of the STK webhook handler (after dedup):
merge the callback into `tx.daraja`, then apply the success or failure
transition. An onramp success additionally schedules the asynchronous
credit settlement, which re-loads the transaction from the database out
of band and is not part of this synchronous step. -/
def stkApply (tx : Transaction) (cb : StkCallback) (now : Nat) :
    Except String Transaction :=
  let parsed := parseResultCode cb.resultCode
  let tx1 := mergeStkDaraja tx cb now
  if parsed.isSuccess then
    if tx1.flowType = "onramp" then
      if tx1.status = Status.mpesa_submitted then
        assertTransition tx1 .mpesa_processing (some "STK callback success")
          "webhook" now
      else Except.ok tx1
    else
      if tx1.status ≠ Status.succeeded then
        assertTransition tx1 .succeeded (some "STK callback success")
          "webhook" now
      else Except.ok tx1
  else
    if tx1.status ≠ Status.failed then
      assertTransition tx1 .failed (some "STK callback failure") "webhook" now
    else Except.ok tx1

/-- The durable state a webhook touches: the set of stored `MpesaEvent`
dedup keys (unique index on `eventKey`) and the matched transaction. -/
structure WebhookState where
  dedupKeys : List String
  tx : Transaction
deriving DecidableEq, Repr

/-- One synchronous run of `POST /webhooks/stk` for a callback that
matches the state's transaction: build the event key; `saveEventIfNew`
returns false on a duplicate key and the handler acknowledges without
touching the transaction; otherwise the key row is inserted and the
transition stage runs — if it throws, the handler acknowledges and the
transaction save never happens (the dedup row, already inserted,
remains). -/
def stkWebhookStep (s : WebhookState) (cb : StkCallback) (now : Nat) :
    WebhookState :=
  let key := stkEventKey s.tx cb
  if s.dedupKeys.contains key then s
  else
    match stkApply s.tx cb now with
    | .ok tx' => { dedupKeys := key :: s.dedupKeys, tx := tx' }
    | .error _ => { dedupKeys := key :: s.dedupKeys, tx := s.tx }

lemma assertTransition_transactionId (tx : Transaction) (to_ : Status)
    (r : Option String) (src : String) (now : Nat) (tx' : Transaction)
    (h : assertTransition tx to_ r src now = Except.ok tx') :
    tx'.transactionId = tx.transactionId := by
  rw [assertTransition] at h
  split at h
  · cases h
  · split at h
    · injection h with h
      subst h
      rfl
    · injection h with h
      subst h
      rfl

lemma stkApply_transactionId (tx : Transaction) (cb : StkCallback) (now : Nat)
    (tx' : Transaction) (h : stkApply tx cb now = Except.ok tx') :
    tx'.transactionId = tx.transactionId := by
  rw [stkApply] at h
  split at h
  · split at h
    · split at h
      · exact (assertTransition_transactionId _ _ _ _ _ _ h).trans rfl
      · injection h with h
        subst h
        rfl
    · split at h
      · exact (assertTransition_transactionId _ _ _ _ _ _ h).trans rfl
      · injection h with h
        subst h
        rfl
  · split at h
    · exact (assertTransition_transactionId _ _ _ _ _ _ h).trans rfl
    · injection h with h
      subst h
      rfl

/-- C5: the STK webhook handler builds the stable event key
`stk:${transactionId}:${provider-id-or-none}:${resultCode}` and inserts a
DedupEvent under it before acting; when the key already exists it
acknowledges without modifying anything, so a replay of an identical
callback after the first run is a no-op: no state transition, no history
entry, no second DedupEvent row. -/
theorem claim5_stk_webhook_replay (s : WebhookState) (cb : StkCallback)
    (now1 now2 : Nat) :
    stkEventKey s.tx cb =
      "stk:" ++ s.tx.transactionId ++ ":" ++ jsOr cb.checkoutRequestId "none" ++
        ":" ++ (parseResultCode cb.resultCode).key ∧
    (s.dedupKeys.contains (stkEventKey s.tx cb) = true →
      stkWebhookStep s cb now1 = s) ∧
    stkWebhookStep (stkWebhookStep s cb now1) cb now2 =
      stkWebhookStep s cb now1 := by
  have hnoop : ∀ (s' : WebhookState) (n : Nat),
      s'.dedupKeys.contains (stkEventKey s'.tx cb) = true →
      stkWebhookStep s' cb n = s' := by
    intro s' n h
    rw [stkWebhookStep, if_pos h]
  refine ⟨rfl, hnoop s now1, ?_⟩
  by_cases h : s.dedupKeys.contains (stkEventKey s.tx cb) = true
  · rw [hnoop s now1 h]
    exact hnoop s now2 h
  · have h' : s.dedupKeys.contains (stkEventKey s.tx cb) = false := by
      simpa using h
    cases ha : stkApply s.tx cb now1 with
    | ok tx' =>
      have hs1 : stkWebhookStep s cb now1 =
          { dedupKeys := stkEventKey s.tx cb :: s.dedupKeys, tx := tx' } := by
        rw [stkWebhookStep, if_neg (by rw [h']; simp), ha]
      rw [hs1]
      apply hnoop
      have hid := stkApply_transactionId _ _ _ _ ha
      have hkey : stkEventKey tx' cb = stkEventKey s.tx cb := by
        rw [stkEventKey, stkEventKey, hid]
      simp [hkey]
    | error e =>
      have hs1 : stkWebhookStep s cb now1 =
          { dedupKeys := stkEventKey s.tx cb :: s.dedupKeys, tx := s.tx } := by
        rw [stkWebhookStep, if_neg (by rw [h']; simp), ha]
      rw [hs1]
      apply hnoop
      simp

/-- A transaction awaiting its STK callback, and a successful callback
for it. -/
def txSubmitted : Transaction :=
  { txQuoted with status := Status.mpesa_submitted }

/-- A concrete successful STK callback. -/
def cbSuccess : StkCallback :=
  { checkoutRequestId := some "ws_CO_1", merchantRequestId := some "m1",
    resultCode := .num 0, resultDesc := some "Success",
    receiptNumber := some "QBC123" }

/-- Witness for C5: with the key `stk:MPX1:ws_CO_1:0` already stored, a
replayed successful callback leaves the state untouched, and running the
handler twice from a fresh state equals running it once. -/
theorem claim5_stk_webhook_replay_witness :
    stkWebhookStep
      { dedupKeys := ["stk:MPX1:ws_CO_1:0"], tx := txSubmitted } cbSuccess 5 =
      { dedupKeys := ["stk:MPX1:ws_CO_1:0"], tx := txSubmitted } ∧
    stkWebhookStep
      (stkWebhookStep { dedupKeys := [], tx := txSubmitted } cbSuccess 5)
      cbSuccess 6 =
      stkWebhookStep { dedupKeys := [], tx := txSubmitted } cbSuccess 5 := by
  constructor
  · exact (claim5_stk_webhook_replay
      { dedupKeys := ["stk:MPX1:ws_CO_1:0"], tx := txSubmitted }
      cbSuccess 5 5).2.1 (by decide)
  · exact (claim5_stk_webhook_replay
      { dedupKeys := [], tx := txSubmitted } cbSuccess 5 6).2.2

end DotPay
